import Mathlib

/-!
Verification of the payment-webhook and subscription-lifecycle pipeline of the
hackhome backend (`webhook_server.py`, `bot_manager.py`).

The Python sources are shallowly embedded: bytes are `List Nat` (each entry a
byte value), machine 64-bit words are `Nat` reduced mod `2 ^ 64`, MongoDB
collections are Lean lists of records, `update_one` / `find_one` act on the
first matching record, `update_many` maps over all matching records, and
timestamps (ISO-8601 strings in the source, compared lexicographically, hence
order-isomorphic to instants) are `Int` values counted in seconds.
External collaborators (the Telegram channel API, the scheduler of the bot
process) are modelled as explicit state components and success oracles.
-/

set_option maxRecDepth 100000

namespace HackHome

/-! ## 64-bit words as `Nat` mod `2 ^ 64` -/

/-- The modulus for 64-bit machine words. -/
def W64 : Nat := 2 ^ 64

/-- Wrapping 64-bit addition. -/
def add64 (a b : Nat) : Nat := (a + b) % W64

/-- 64-bit left shift (wrapping). -/
def shl64 (x n : Nat) : Nat := (x <<< n) % W64

/-- Right rotation of a 64-bit word by `n` places. -/
def rotr64 (x n : Nat) : Nat := (x >>> n) ||| shl64 x (64 - n)

/-- Bitwise complement on 64 bits. -/
def not64 (x : Nat) : Nat := x ^^^ (W64 - 1)

/-! ## SHA-512 (FIPS 180-4), as used by Python's `hashlib.sha512` -/

/-- The `Ch(x, y, z)` function of FIPS 180-4. -/
def ch64 (x y z : Nat) : Nat := (x &&& y) ^^^ (not64 x &&& z)

/-- The `Maj(x, y, z)` function of FIPS 180-4. -/
def maj64 (x y z : Nat) : Nat := (x &&& y) ^^^ (x &&& z) ^^^ (y &&& z)

/-- Big sigma 0. -/
def bsig0 (x : Nat) : Nat := rotr64 x 28 ^^^ rotr64 x 34 ^^^ rotr64 x 39

/-- Big sigma 1. -/
def bsig1 (x : Nat) : Nat := rotr64 x 14 ^^^ rotr64 x 18 ^^^ rotr64 x 41

/-- Small sigma 0. -/
def ssig0 (x : Nat) : Nat := rotr64 x 1 ^^^ rotr64 x 8 ^^^ (x >>> 7)

/-- Small sigma 1. -/
def ssig1 (x : Nat) : Nat := rotr64 x 19 ^^^ rotr64 x 61 ^^^ (x >>> 6)

/-- The eight SHA-512 initial hash values. -/
def sha512H0 : List Nat :=
  [0x6A09E667F3BCC908, 0xBB67AE8584CAA73B, 0x3C6EF372FE94F82B, 0xA54FF53A5F1D36F1,
   0x510E527FADE682D1, 0x9B05688C2B3E6C1F, 0x1F83D9ABFB41BD6B, 0x5BE0CD19137E2179]

/-- The eighty SHA-512 round constants. -/
def sha512K : List Nat :=
  [0x428A2F98D728AE22, 0x7137449123EF65CD, 0xB5C0FBCFEC4D3B2F, 0xE9B5DBA58189DBBC,
   0x3956C25BF348B538, 0x59F111F1B605D019, 0x923F82A4AF194F9B, 0xAB1C5ED5DA6D8118,
   0xD807AA98A3030242, 0x12835B0145706FBE, 0x243185BE4EE4B28C, 0x550C7DC3D5FFB4E2,
   0x72BE5D74F27B896F, 0x80DEB1FE3B1696B1, 0x9BDC06A725C71235, 0xC19BF174CF692694,
   0xE49B69C19EF14AD2, 0xEFBE4786384F25E3, 0x0FC19DC68B8CD5B5, 0x240CA1CC77AC9C65,
   0x2DE92C6F592B0275, 0x4A7484AA6EA6E483, 0x5CB0A9DCBD41FBD4, 0x76F988DA831153B5,
   0x983E5152EE66DFAB, 0xA831C66D2DB43210, 0xB00327C898FB213F, 0xBF597FC7BEEF0EE4,
   0xC6E00BF33DA88FC2, 0xD5A79147930AA725, 0x06CA6351E003826F, 0x142929670A0E6E70,
   0x27B70A8546D22FFC, 0x2E1B21385C26C926, 0x4D2C6DFC5AC42AED, 0x53380D139D95B3DF,
   0x650A73548BAF63DE, 0x766A0ABB3C77B2A8, 0x81C2C92E47EDAEE6, 0x92722C851482353B,
   0xA2BFE8A14CF10364, 0xA81A664BBC423001, 0xC24B8B70D0F89791, 0xC76C51A30654BE30,
   0xD192E819D6EF5218, 0xD69906245565A910, 0xF40E35855771202A, 0x106AA07032BBD1B8,
   0x19A4C116B8D2D0C8, 0x1E376C085141AB53, 0x2748774CDF8EEB99, 0x34B0BCB5E19B48A8,
   0x391C0CB3C5C95A63, 0x4ED8AA4AE3418ACB, 0x5B9CCA4F7763E373, 0x682E6FF3D6B2B8A3,
   0x748F82EE5DEFB2FC, 0x78A5636F43172F60, 0x84C87814A1F0AB72, 0x8CC702081A6439EC,
   0x90BEFFFA23631E28, 0xA4506CEBDE82BDE9, 0xBEF9A3F7B2C67915, 0xC67178F2E372532B,
   0xCA273ECEEA26619C, 0xD186B8C721C0C207, 0xEADA7DD6CDE0EB1E, 0xF57D4F7FEE6ED178,
   0x06F067AA72176FBA, 0x0A637DC5A2C898A6, 0x113F9804BEF90DAE, 0x1B710B35131C471B,
   0x28DB77F523047D84, 0x32CAAB7B40C72493, 0x3C9EBE0A15C9BEBC, 0x431D67C49C100D4C,
   0x4CC5D4BECB3E42B6, 0x597F299CFC657E2A, 0x5FCB6FAB3AD6FAEC, 0x6C44198C4A475817]

/-- The `n`-byte big-endian serialization of a natural number. -/
def beBytes (n x : Nat) : List Nat :=
  (List.range n).map (fun i => (x >>> (8 * (n - 1 - i))) &&& 0xFF)

/-- Big-endian word value of a byte list. -/
def beWord (bytes : List Nat) : Nat := bytes.foldl (fun acc b => acc * 256 + b % 256) 0

/-- SHA-512 padding: `0x80`, zeros, and the 128-bit big-endian bit length, up to a
multiple of 128 bytes. -/
def sha512pad (msg : List Nat) : List Nat :=
  let len := msg.length
  let zeros := (128 + 112 - (len + 1) % 128) % 128
  msg ++ [0x80] ++ List.replicate zeros 0 ++ beBytes 16 (8 * len)

/-- The sixteen 64-bit words of the `b`-th 128-byte block of a padded message. -/
def blockWords (padded : List Nat) (b : Nat) : List Nat :=
  (List.range 16).map (fun t => beWord ((padded.drop (128 * b + 8 * t)).take 8))

/-- One step of the message-schedule extension.  The accumulator holds the words
produced so far, newest first, so `w[t-2]`, `w[t-7]`, `w[t-15]`, `w[t-16]` sit at
positions 1, 6, 14, 15. -/
def scheduleStep (ws : List Nat) : List Nat :=
  add64 (add64 (ssig1 (ws.getD 1 0)) (ws.getD 6 0))
        (add64 (ssig0 (ws.getD 14 0)) (ws.getD 15 0)) :: ws

/-- Extend a 16-word block to the full 80-word message schedule. -/
def msgSchedule (w16 : List Nat) : List Nat :=
  ((List.range 64).foldl (fun ws _ => scheduleStep ws) w16.reverse).reverse

/-- The eight working variables of the SHA-512 compression function. -/
structure Hash8 where
  a : Nat
  b : Nat
  c : Nat
  d : Nat
  e : Nat
  f : Nat
  g : Nat
  h : Nat
deriving DecidableEq, Repr

/-- One round of the SHA-512 compression function; `kw` is the pair of the round
constant and the schedule word. -/
def roundStep (st : Hash8) (kw : Nat × Nat) : Hash8 :=
  let t1 := add64 (add64 (add64 st.h (bsig1 st.e)) (add64 (ch64 st.e st.f st.g) kw.1)) kw.2
  let t2 := add64 (bsig0 st.a) (maj64 st.a st.b st.c)
  ⟨add64 t1 t2, st.a, st.b, st.c, add64 st.d t1, st.e, st.f, st.g⟩

/-- Compress one 16-word block into the running hash state. -/
def sha512compress (st : Hash8) (w16 : List Nat) : Hash8 :=
  let r := (sha512K.zip (msgSchedule w16)).foldl roundStep st
  ⟨add64 st.a r.a, add64 st.b r.b, add64 st.c r.c, add64 st.d r.d,
   add64 st.e r.e, add64 st.f r.f, add64 st.g r.g, add64 st.h r.h⟩

/-- The initial `Hash8` state. -/
def sha512init : Hash8 :=
  ⟨sha512H0.getD 0 0, sha512H0.getD 1 0, sha512H0.getD 2 0, sha512H0.getD 3 0,
   sha512H0.getD 4 0, sha512H0.getD 5 0, sha512H0.getD 6 0, sha512H0.getD 7 0⟩

/-- SHA-512 of a byte string, as the eight-word final state. -/
def sha512Words (msg : List Nat) : Hash8 :=
  let padded := sha512pad msg
  (List.range (padded.length / 128)).foldl
    (fun st b => sha512compress st (blockWords padded b)) sha512init

/-- SHA-512 of a byte string, as its 64-byte digest. -/
def sha512Bytes (msg : List Nat) : List Nat :=
  let s := sha512Words msg
  beBytes 8 s.a ++ beBytes 8 s.b ++ beBytes 8 s.c ++ beBytes 8 s.d ++
  beBytes 8 s.e ++ beBytes 8 s.f ++ beBytes 8 s.g ++ beBytes 8 s.h

/-- Lowercase hexadecimal digit character for a nibble. -/
def hexDigit (n : Nat) : Char :=
  if n < 10 then Char.ofNat (48 + n) else Char.ofNat (87 + n)

/-- Two lowercase hex characters of a byte. -/
def byteHex (b : Nat) : List Char := [hexDigit (b / 16 % 16), hexDigit (b % 16)]

/-- Lowercase hex encoding of a byte string (Python's `.hexdigest()` form). -/
def bytesHex (bs : List Nat) : String := String.mk (bs.foldr (fun b acc => byteHex b ++ acc) [])

/-! ## HMAC-SHA512 (FIPS 198-1), as used by Python's `hmac.new(..., hashlib.sha512)` -/

/-- The key, hashed if longer than the 128-byte SHA-512 block and zero-padded to
exactly one block. -/
def hmacBlockKey (key : List Nat) : List Nat :=
  let k0 := if key.length > 128 then sha512Bytes key else key
  k0 ++ List.replicate (128 - k0.length) 0

/-- HMAC-SHA512 digest bytes of `msg` under `key`. -/
def hmacSha512Bytes (key msg : List Nat) : List Nat :=
  let k0 := hmacBlockKey key
  sha512Bytes ((k0.map (fun b => b ^^^ 0x5C)) ++
    sha512Bytes ((k0.map (fun b => b ^^^ 0x36)) ++ msg))

/-- Hex digest of HMAC-SHA512, Python's `hmac.new(key, msg, sha512).hexdigest()`. -/
def hmacSha512Hex (key msg : List Nat) : String := bytesHex (hmacSha512Bytes key msg)

/-- FIPS 180-4 sanity vector: SHA-512 of the three bytes `"abc"`. -/
theorem sha512_vector_abc :
    bytesHex (sha512Bytes [97, 98, 99]) =
      "ddaf35a193617abacc417349ae20413112e6fa4e89a97ea20a9eeee64b55d39a2192992a274fc1a836ba3c23a3feebbd454d4423643ce80e2a9ac94fa54ca49f" := by
  decide

/-- RFC 4231 test case 2: HMAC-SHA512 with key `"Jefe"` over
`"what do ya want for nothing?"`. -/
theorem hmac_sha512_vector_jefe :
    hmacSha512Hex [74, 101, 102, 101]
      [119, 104, 97, 116, 32, 100, 111, 32, 121, 97, 32, 119, 97, 110, 116,
       32, 102, 111, 114, 32, 110, 111, 116, 104, 105, 110, 103, 63] =
      "164b7a7bfcf819e2e395fbe73b56e0a387bd64222e831fd610270cd7ea2505549758bf75c05a994a6d034f65f8f0e6fdcaeab1a34d4a6b4b636e070a38bce737" := by
  decide

/-! ## Signature verification (`webhook_server.verify_ipn_signature`)

The secret comes from `os.getenv('IPN_SECRET_KEY')`: a missing variable makes
`.encode()` raise inside the `try`, so the function returns `False`.  With a
secret present, the function returns `hmac.compare_digest(signature,
expected_signature)` where `expected_signature` is the lowercase hex
HMAC-SHA512 of the raw body.  `compare_digest` on strings is semantically
string equality (its non-ASCII `TypeError` is swallowed by the same `except`,
and a non-ASCII header can never equal the ASCII hex digest, so equality is the
faithful value).  The function is pure apart from logging. -/

/-- Function `verify_ipn_signature(data, signature)` with the `IPN_SECRET_KEY`
environment value made an explicit `Option` of key bytes and the raw body made
explicit bytes. -/
def verify_ipn_signature (secretKey : Option (List Nat)) (data : List Nat)
    (signature : String) : Bool :=
  match secretKey with
  | none => false
  | some key => signature == hmacSha512Hex key data

/-! ## Data model: MongoDB records as Lean records

Documents of the `users` and `payments` collections carry exactly the fields
this code base reads or writes; absent fields are `none`.  Floating-point
fields (`amount`, prices) play no part in any verified property and are
omitted.  `update_one` updates the first matching document, `find_one` returns
it, `update_many` updates every matching document. -/

/-- The parsed webhook JSON fields the handler reads (`request.get_json()`). -/
structure WebhookData where
  payment_id : Option String
  payment_status : Option String
  order_id : Option String
deriving DecidableEq, Repr

/-- A document of the `users` collection. -/
structure UserRec where
  user_id : Int
  username : Option String
  subscription_plan : Option String
  subscription_start : Option Int
  subscription_end : Option Int
  status : Option String
  revoked_at : Option Int
  expired_at : Option Int
deriving DecidableEq, Repr

/-- A document of the `payments` collection. -/
structure PaymentRec where
  payment_id : Option String
  user_id : Option Int
  plan : Option String
  status : Option String
  webhook_data : Option WebhookData
  created_at : Option Int
  updated_at : Option Int
deriving DecidableEq, Repr

/-- Mongo `update_one`: rewrite the first record satisfying `p` with `f`. -/
def updateFirst (p : α → Prop) [DecidablePred p] (f : α → α) : List α → List α
  | [] => []
  | x :: xs => if p x then f x :: xs else x :: updateFirst p f xs

/-- Mongo `find_one`: the first record satisfying `p`. -/
def findFirst? (p : α → Prop) [DecidablePred p] : List α → Option α
  | [] => none
  | x :: xs => if p x then some x else findFirst? p xs

/-- One day of the second-valued clock (`timedelta(days=1)`). -/
def daySecs : Int := 86400

/-- The world the webhook server acts on: the two collections plus the Telegram
channel-membership relation, the external collaborator's state (a pair
`(channel id, user id)` per admitted member). -/
structure World where
  users : List UserRec
  payments : List PaymentRec
  memberships : List (String × Int)
deriving DecidableEq, Repr

/-- The process environment and external-call outcomes of one request:
the IPN secret, the three configured channel ids (`None` when the variable is
unset), and whether the two Telegram calls (`unban_chat_member`,
`send_message`) succeed. -/
structure Env where
  ipnSecretKey : Option (List Nat)
  beginnerChannelId : Option String
  midChannelId : Option String
  completeChannelId : Option String
  unbanOk : Bool
  sendOk : Bool
deriving DecidableEq, Repr

/-- Lookup `plans[plan]['channel']`: each of the three plan entries names the channel
key equal to its own key; any other plan string raises `KeyError`. -/
def plansChannel (plan : String) : Option String :=
  if plan = "beginner" ∨ plan = "mid" ∨ plan = "complete" then some plan else none

/-- The `channels` dict: the configured id for each of its three keys. -/
def channelFor (env : Env) (k : String) : Option String :=
  if k = "beginner" then env.beginnerChannelId
  else if k = "mid" then env.midChannelId
  else if k = "complete" then env.completeChannelId
  else none

/-- Idempotent grant: `unban_chat_member` admits the user to the channel (the
spec's `grantMembership`); re-admitting a member changes nothing. -/
def insertMember (cid : String) (uid : Int) (mems : List (String × Int)) :
    List (String × Int) :=
  if (cid, uid) ∈ mems then mems else (cid, uid) :: mems

/-- Function `add_user_to_channel(user_id, plan)`: looks up the channel id (a `KeyError`
for an unknown plan is caught and yields `False`), rejects a falsy id, unbans
the user in the channel and sends the welcome message; an exception in either
external call is caught and yields `False`.  Returns the success flag and the
membership state. -/
def add_user_to_channel (env : Env) (user_id : Int) (plan : String)
    (mems : List (String × Int)) : Bool × List (String × Int) :=
  match plansChannel plan with
  | none => (false, mems)
  | some chKey =>
    match channelFor env chKey with
    | none => (false, mems)
    | some cid =>
      if cid = "" then (false, mems)
      else if env.unbanOk then
        let mems' := insertMember cid user_id mems
        if env.sendOk then (true, mems') else (false, mems')
      else (false, mems)

/-- Function `handle_successful_payment(user_id, plan)`: grants channel access and, only
when that succeeded, activates the user's subscription for 30 days from now
(`update_one` without upsert: a missing user document matches nothing). -/
def handle_successful_payment (env : Env) (now : Int) (user_id : Int)
    (plan : String) (users : List UserRec) (mems : List (String × Int)) :
    Bool × List UserRec × List (String × Int) :=
  match add_user_to_channel env user_id plan mems with
  | (false, mems') => (false, users, mems')
  | (true, mems') =>
    (true,
     updateFirst (fun u => u.user_id = user_id)
       (fun u => { u with subscription_plan := some plan,
                          subscription_start := some now,
                          subscription_end := some (now + 30 * daySecs),
                          status := some "active" }) users,
     mems')

/-- Python `str.split(sep)` for a one-character separator, over the character
list: the empty string yields `[""]`, adjacent separators yield empty parts. -/
def splitOnChar (sep : Char) : List Char → List (List Char)
  | [] => [[]]
  | c :: cs =>
    match splitOnChar sep cs with
    | [] => [[c]]
    | h :: t => if c = sep then [] :: h :: t else (c :: h) :: t

/-- Strip leading and trailing whitespace, as Python `int` does before
parsing. -/
def trimChars (cs : List Char) : List Char :=
  ((cs.dropWhile Char.isWhitespace).reverse.dropWhile Char.isWhitespace).reverse

/-- Python `int(s)` on a split part: surrounding whitespace stripped, optional
sign, then at least one decimal digit (the source's parts can never contain
the underscore grouping `int` would additionally accept, having been produced
by splitting on underscores). -/
def pyInt (cs0 : List Char) : Option Int :=
  let cs := trimChars cs0
  let signed : Bool × List Char :=
    match cs with
    | '-' :: rest => (true, rest)
    | '+' :: rest => (false, rest)
    | _ => (false, cs)
  if signed.2 ≠ [] ∧ signed.2.all Char.isDigit then
    let n := signed.2.foldl (fun acc c => acc * 10 + (c.toNat - 48)) (0 : Nat)
    some (if signed.1 then -(n : Int) else (n : Int))
  else none

/-- Result of parsing the order identifier. -/
inductive OrderParse where
  | ok (user_id : Int) (plan : String)
  | badFormat
  | badInt
deriving DecidableEq, Repr

/-- Lines 152–162 of `webhook_server.py`: split on `'_'`, demand at least four
parts led by `hack`, `academy`; the third part must parse as an int
(`ValueError` otherwise), the fourth is the plan. -/
def parse_order_id (order_id : String) : OrderParse :=
  let parts := splitOnChar '_' order_id.data
  if parts.length ≥ 4 ∧ parts.getD 0 [] = "hack".data ∧
     parts.getD 1 [] = "academy".data then
    match pyInt (parts.getD 2 []) with
    | some n => .ok n (String.mk (parts.getD 3 []))
    | none => .badInt
  else .badFormat

/-- A JSON response body of the handler. -/
inductive RespBody where
  | statusJson (s : String)
  | errorJson (e : String)
deriving DecidableEq, Repr

/-- An HTTP response: status code and JSON body. -/
structure HttpResp where
  code : Nat
  body : RespBody
deriving DecidableEq, Repr

/-- Route `POST /payment_webhook`: check the `x-nowpayments-sig` header, verify the
signature over the raw body, demand a truthy `order_id`, parse it,
unconditionally write the delivered status into the matching payment document,
and for a `finished`/`confirmed` status run `handle_successful_payment`; every
path past parsing acknowledges with 200 `status: success`.

An absent header and the falsy empty header are both modelled as `none` (both
take the identical `No signature` 400 path).  The body's parsed JSON is taken
as an input alongside the raw bytes; a signed body that is not valid JSON
raises in `get_json` and lands in the generic 500 handler, which no claim
touches. -/
def payment_webhook (env : Env) (now : Int) (signature : Option String)
    (rawData : List Nat) (webhookData : WebhookData) (w : World) :
    HttpResp × World :=
  match signature with
  | none => (⟨400, .errorJson "No signature"⟩, w)
  | some sig =>
    if verify_ipn_signature env.ipnSecretKey rawData sig then
      match webhookData.order_id with
      | none => (⟨400, .errorJson "No order_id"⟩, w)
      | some oid =>
        if oid = "" then (⟨400, .errorJson "No order_id"⟩, w)
        else
          match parse_order_id oid with
          | .badFormat => (⟨400, .errorJson "Invalid order_id format"⟩, w)
          | .badInt => (⟨400, .errorJson "Error parsing order_id"⟩, w)
          | .ok user_id plan =>
            let payments' := updateFirst
              (fun p => p.payment_id = webhookData.payment_id)
              (fun p => { p with status := webhookData.payment_status,
                                 webhook_data := some webhookData,
                                 updated_at := some now }) w.payments
            if webhookData.payment_status = some "finished" ∨
               webhookData.payment_status = some "confirmed" then
              let r := handle_successful_payment env now user_id plan
                w.users w.memberships
              (⟨200, .statusJson "success"⟩,
               ⟨r.2.1, payments', r.2.2⟩)
            else
              (⟨200, .statusJson "success"⟩, ⟨w.users, payments', w.memberships⟩)
    else (⟨400, .errorJson "Invalid signature"⟩, w)

/-! ## Admin CLI (`bot_manager.py`)

`BotManager` holds only the MongoDB client; it has no Telegram bot handle and
no scheduler handle, so its commands can touch nothing but the `users` and
`payments` collections.  The channel-membership relation and the pending
scheduled-expiry jobs of the bot process (keyed `expiry_<user>_<plan>` with the
run date, from `telegram_bot.py`) are carried alongside to state what the
commands leave untouched. -/

/-- The world the admin CLI acts in: the `users` collection plus the external
collaborators' state, which `BotManager` cannot reach. -/
structure AdminWorld where
  users : List UserRec
  memberships : List (String × Int)
  scheduledExpiries : List (Int × Int)
deriving DecidableEq, Repr

/-- Command `extend_subscription(user_id, days)`: `find_one` the user (printing and
returning when absent); the new end is the current `subscription_end` plus
`days` when that field is present and truthy, otherwise now plus `days`; then
`update_one` sets the new end and `status='active'`. -/
def extend_subscription (now : Int) (user_id : Int) (days : Int)
    (users : List UserRec) : List UserRec :=
  match findFirst? (fun u => u.user_id = user_id) users with
  | none => users
  | some user =>
    let new_end := match user.subscription_end with
      | some e => e + days * daySecs
      | none => now + days * daySecs
    updateFirst (fun u => u.user_id = user_id)
      (fun u => { u with subscription_end := some new_end,
                         status := some "active" }) users

/-- Command `revoke_access(user_id)`: a single `update_one` setting `status='revoked'`
and `revoked_at`.  Nothing else happens: no channel call, no scheduler call. -/
def revoke_access (now : Int) (user_id : Int) (users : List UserRec) :
    List UserRec :=
  updateFirst (fun u => u.user_id = user_id)
    (fun u => { u with status := some "revoked", revoked_at := some now }) users

/-- Does a user document match the `cleanup_expired` query
`{'subscription_end': {'$lt': now}, 'status': 'active'}`?  Mongo's `$lt` never
matches a document missing the field. -/
def cleanupMatches (now : Int) (u : UserRec) : Prop :=
  (match u.subscription_end with
   | some e => e < now
   | none => False) ∧ u.status = some "active"

instance (now : Int) (u : UserRec) : Decidable (cleanupMatches now u) := by
  unfold cleanupMatches
  exact match u.subscription_end with
    | some _ => instDecidableAnd
    | none => instDecidableAnd

/-- Command `cleanup_expired()`: one `update_many` setting `status='expired'` and
`expired_at` on every active user whose `subscription_end` lies before now. -/
def cleanup_expired (now : Int) (users : List UserRec) : List UserRec :=
  users.map (fun u =>
    if cleanupMatches now u then
      { u with status := some "expired", expired_at := some now }
    else u)

/-- Command `revoke_access` as it acts on the whole world: only the `users` collection
is written, because `BotManager` holds no bot and no scheduler. -/
def revoke_access_world (now : Int) (user_id : Int) (w : AdminWorld) :
    AdminWorld :=
  { w with users := revoke_access now user_id w.users }

/-- Command `extend_subscription` on the whole world: only `users` is written. -/
def extend_subscription_world (now : Int) (user_id : Int) (days : Int)
    (w : AdminWorld) : AdminWorld :=
  { w with users := extend_subscription now user_id days w.users }

/-! ## Helper lemmas about the Mongo-operation models -/

theorem updateFirst_length (p : α → Prop) [DecidablePred p] (f : α → α) :
    ∀ l : List α, (updateFirst p f l).length = l.length := by
  intro l
  induction l with
  | nil => rfl
  | cons x xs ih =>
    by_cases h : p x <;> simp [updateFirst, h, ih]

theorem findFirst?_updateFirst (p : α → Prop) [DecidablePred p] (f : α → α)
    (hp : ∀ x, p x → p (f x)) :
    ∀ l : List α, findFirst? p (updateFirst p f l) = (findFirst? p l).map f := by
  intro l
  induction l with
  | nil => rfl
  | cons x xs ih =>
    by_cases h : p x
    · simp [updateFirst, findFirst?, h, hp x h]
    · simp [updateFirst, findFirst?, h, ih]

theorem updateFirst_of_forall_not (p : α → Prop) [DecidablePred p] (f : α → α)
    (l : List α) (h : ∀ x ∈ l, ¬ p x) : updateFirst p f l = l := by
  induction l with
  | nil => rfl
  | cons x xs ih =>
    simp only [updateFirst, if_neg (h x (List.mem_cons_self x xs))]
    rw [ih (fun y hy => h y (List.mem_cons_of_mem x hy))]

theorem updateFirst_idem (p : α → Prop) [DecidablePred p] (f : α → α)
    (hp : ∀ x, p (f x) ↔ p x) (hf : ∀ x, f (f x) = f x) :
    ∀ l : List α, updateFirst p f (updateFirst p f l) = updateFirst p f l := by
  intro l
  induction l with
  | nil => rfl
  | cons x xs ih =>
    by_cases h : p x
    · simp [updateFirst, h, (hp x).mpr h, hf x]
    · simp [updateFirst, h, ih]

theorem insertMember_idem (c : String) (u : Int) (m : List (String × Int)) :
    insertMember c u (insertMember c u m) = insertMember c u m := by
  by_cases h : (c, u) ∈ m
  · simp [insertMember, h]
  · simp [insertMember, h]

theorem mem_insertMember (c : String) (u : Int) (m : List (String × Int)) :
    (c, u) ∈ insertMember c u m := by
  by_cases h : (c, u) ∈ m <;> simp [insertMember, h]

/-- Re-running the channel grant on its own resulting membership state returns
the identical flag and state: `unban_chat_member` is idempotent. -/
theorem add_user_to_channel_idem (env : Env) (u : Int) (plan : String)
    (m : List (String × Int)) :
    add_user_to_channel env u plan (add_user_to_channel env u plan m).2
      = add_user_to_channel env u plan m := by
  unfold add_user_to_channel
  rcases hpc : plansChannel plan with _ | chKey
  · simp [hpc]
  · rcases hcf : channelFor env chKey with _ | cid
    · simp [hpc, hcf]
    · by_cases hc : cid = ""
      · simp [hpc, hcf, hc]
      · by_cases hu : env.unbanOk
        · by_cases hs : env.sendOk
          · simp [hpc, hcf, hc, hu, hs, insertMember_idem]
          · simp [hpc, hcf, hc, hu, hs, insertMember_idem]
        · simp [hpc, hcf, hc, hu]

/-- Re-running the successful-payment handler on its own resulting user and
membership state returns the identical flag and state. -/
theorem handle_successful_payment_idem (env : Env) (now : Int) (uid : Int)
    (plan : String) (users : List UserRec) (mems : List (String × Int)) :
    handle_successful_payment env now uid plan
        (handle_successful_payment env now uid plan users mems).2.1
        (handle_successful_payment env now uid plan users mems).2.2
      = handle_successful_payment env now uid plan users mems := by
  rcases hadd : add_user_to_channel env uid plan mems with ⟨b, mems'⟩
  have hidem := add_user_to_channel_idem env uid plan mems
  rw [hadd] at hidem
  cases b
  · simp [handle_successful_payment, hadd, hidem]
  · simp only [handle_successful_payment, hadd, hidem]
    refine Prod.ext rfl (Prod.ext ?_ rfl)
    show updateFirst _ _ (updateFirst _ _ users) = updateFirst _ _ users
    apply updateFirst_idem
    · exact fun x => Iff.rfl
    · exact fun x => rfl

/-! ## Branch evaluation lemmas for `payment_webhook` -/

/-- The new-payment-status setter the handler writes into the matching payment
document. -/
def paymentSet (ev : WebhookData) (now : Int) (p : PaymentRec) : PaymentRec :=
  { p with status := ev.payment_status, webhook_data := some ev,
           updated_at := some now }

/-- The payment-id match predicate of the handler's `update_one`. -/
def payMatch (ev : WebhookData) (p : PaymentRec) : Prop :=
  p.payment_id = ev.payment_id

instance (ev : WebhookData) : DecidablePred (payMatch ev) :=
  fun p => inferInstanceAs (Decidable (p.payment_id = ev.payment_id))

theorem pw_missing_sig (env : Env) (now : Int) (raw : List Nat)
    (ev : WebhookData) (w : World) :
    payment_webhook env now none raw ev w
      = (⟨400, .errorJson "No signature"⟩, w) := rfl

theorem pw_bad_sig (env : Env) (now : Int) (s : String) (raw : List Nat)
    (ev : WebhookData)
    (hv : verify_ipn_signature env.ipnSecretKey raw s = false) (w : World) :
    payment_webhook env now (some s) raw ev w
      = (⟨400, .errorJson "Invalid signature"⟩, w) := by
  simp [payment_webhook, hv]

theorem pw_no_order (env : Env) (now : Int) (s : String) (raw : List Nat)
    (ev : WebhookData)
    (hv : verify_ipn_signature env.ipnSecretKey raw s = true)
    (ho : ev.order_id = none) (w : World) :
    payment_webhook env now (some s) raw ev w
      = (⟨400, .errorJson "No order_id"⟩, w) := by
  simp [payment_webhook, hv, ho]

theorem pw_empty_order (env : Env) (now : Int) (s : String) (raw : List Nat)
    (ev : WebhookData)
    (hv : verify_ipn_signature env.ipnSecretKey raw s = true)
    (ho : ev.order_id = some "") (w : World) :
    payment_webhook env now (some s) raw ev w
      = (⟨400, .errorJson "No order_id"⟩, w) := by
  simp [payment_webhook, hv, ho]

theorem pw_bad_format (env : Env) (now : Int) (s : String) (raw : List Nat)
    (ev : WebhookData) (oid : String)
    (hv : verify_ipn_signature env.ipnSecretKey raw s = true)
    (ho : ev.order_id = some oid) (he : oid ≠ "")
    (hp : parse_order_id oid = .badFormat) (w : World) :
    payment_webhook env now (some s) raw ev w
      = (⟨400, .errorJson "Invalid order_id format"⟩, w) := by
  simp [payment_webhook, hv, ho, he, hp]

theorem pw_bad_int (env : Env) (now : Int) (s : String) (raw : List Nat)
    (ev : WebhookData) (oid : String)
    (hv : verify_ipn_signature env.ipnSecretKey raw s = true)
    (ho : ev.order_id = some oid) (he : oid ≠ "")
    (hp : parse_order_id oid = .badInt) (w : World) :
    payment_webhook env now (some s) raw ev w
      = (⟨400, .errorJson "Error parsing order_id"⟩, w) := by
  simp [payment_webhook, hv, ho, he, hp]

theorem pw_ok_confirmed (env : Env) (now : Int) (s : String)
    (raw : List Nat) (ev : WebhookData) (oid : String)
    (uid : Int) (plan : String)
    (hv : verify_ipn_signature env.ipnSecretKey raw s = true)
    (ho : ev.order_id = some oid) (he : oid ≠ "")
    (hp : parse_order_id oid = .ok uid plan)
    (hst : ev.payment_status = some "finished" ∨
           ev.payment_status = some "confirmed") (w : World) :
    payment_webhook env now (some s) raw ev w
      = (⟨200, .statusJson "success"⟩,
         ⟨(handle_successful_payment env now uid plan w.users w.memberships).2.1,
          updateFirst (payMatch ev) (paymentSet ev now) w.payments,
          (handle_successful_payment env now uid plan w.users w.memberships).2.2⟩) := by
  simp [payment_webhook, hv, ho, he, hp, hst]
  rfl

theorem pw_ok_other_status (env : Env) (now : Int) (s : String)
    (raw : List Nat) (ev : WebhookData) (oid : String)
    (uid : Int) (plan : String)
    (hv : verify_ipn_signature env.ipnSecretKey raw s = true)
    (ho : ev.order_id = some oid) (he : oid ≠ "")
    (hp : parse_order_id oid = .ok uid plan)
    (hst : ¬ (ev.payment_status = some "finished" ∨
              ev.payment_status = some "confirmed")) (w : World) :
    payment_webhook env now (some s) raw ev w
      = (⟨200, .statusJson "success"⟩,
         ⟨w.users,
          updateFirst (payMatch ev) (paymentSet ev now) w.payments,
          w.memberships⟩) := by
  simp [payment_webhook, hv, ho, he, hp, hst]
  rfl

/-! ## Concrete scenarios used by counterexamples and witnesses -/

/-- A fully configured environment whose external Telegram calls succeed. -/
def envOK : Env := ⟨some [1, 2, 3, 4], some "chB", some "chM", some "chC", true, true⟩

/-- An environment whose `unban_chat_member` call raises (channel API down). -/
def envGrantFail : Env := ⟨some [1, 2, 3, 4], some "chB", some "chM", some "chC", false, true⟩

/-- A small raw request body. -/
def rawBody : List Nat := [123, 125]

/-- The valid signature header for `rawBody` under `envOK`'s secret. -/
def sigOK : String := hmacSha512Hex [1, 2, 3, 4] rawBody

/-- A `confirmed` event for payment `p1` of user 42, plan `mid`. -/
def evConfirmed : WebhookData := ⟨some "p1", some "confirmed", some "hack_academy_42_mid_1"⟩

/-- A `failed` event for the same payment. -/
def evFailed : WebhookData := ⟨some "p1", some "failed", some "hack_academy_42_mid_1"⟩

/-- A validly-signed event whose order id does not parse. -/
def evBadOrder : WebhookData := ⟨some "p1", some "confirmed", some "bad"⟩

/-- A registered user with no subscription yet. -/
def user42 : UserRec := ⟨42, some "alice", none, none, none, none, none, none⟩

/-- Payment `p1` already in the terminal status `confirmed`. -/
def pay1confirmed : PaymentRec := ⟨some "p1", some 42, some "mid", some "confirmed", none, some 0, none⟩

/-- Payment `p1` still in status `waiting`. -/
def pay1waiting : PaymentRec := ⟨some "p1", some 42, some "mid", some "waiting", none, some 0, none⟩

/-- World with the terminal payment. -/
def w0 : World := ⟨[user42], [pay1confirmed], []⟩

/-- World with the waiting payment. -/
def w1 : World := ⟨[user42], [pay1waiting], []⟩

/-- World with no payment record at all. -/
def wNoPay : World := ⟨[user42], [], []⟩

/-! ## C1 -/

/-- C1 (amended) — The handler has no terminal-status idempotency guard.  What
holds instead: with the clock and the external-call outcomes fixed,
re-delivering any event to the state the first delivery produced returns the
identical response and state; a duplicate observed at a later clock is
re-processed in full (see the counterexample). -/
theorem C1_duplicate_delivery_fixed_clock_noop (env : Env) (now : Int)
    (sig : Option String) (raw : List Nat) (ev : WebhookData) (w : World) :
    payment_webhook env now sig raw ev (payment_webhook env now sig raw ev w).2
      = payment_webhook env now sig raw ev w := by
  have hupd := updateFirst_idem (payMatch ev) (paymentSet ev now)
    (fun x => Iff.rfl) (fun x => rfl)
  cases sig with
  | none => rfl
  | some s =>
    cases hv : verify_ipn_signature env.ipnSecretKey raw s with
    | false => simp only [pw_bad_sig env now s raw ev hv]
    | true =>
      rcases ho : ev.order_id with _ | oid
      · simp only [pw_no_order env now s raw ev hv ho]
      · by_cases he : oid = ""
        · subst he
          simp only [pw_empty_order env now s raw ev hv ho]
        · rcases hp : parse_order_id oid with ⟨uid, plan⟩ | _ | _
          · by_cases hst : ev.payment_status = some "finished" ∨
                ev.payment_status = some "confirmed"
            · simp only [pw_ok_confirmed env now s raw ev oid uid plan hv ho he hp hst]
              simp only [handle_successful_payment_idem, hupd]
            · simp only [pw_ok_other_status env now s raw ev oid uid plan hv ho he hp hst]
              simp only [hupd]
          · simp only [pw_bad_format env now s raw ev oid hv ho he hp]
          · simp only [pw_bad_int env now s raw ev oid hv ho he hp]

/-- C1 (counterexample) — Payment `p1` already has the terminal status
`confirmed`, yet delivering the same `confirmed` event twice (at clocks 1000
and 2000) is acknowledged with success both times and the second delivery
changes the stored state again: no idempotency guard exists. -/
theorem C1_counterexample :
    pay1confirmed.status = some "confirmed" ∧
    (payment_webhook envOK 1000 (some sigOK) rawBody evConfirmed w0).1
      = ⟨200, .statusJson "success"⟩ ∧
    (payment_webhook envOK 2000 (some sigOK) rawBody evConfirmed
        (payment_webhook envOK 1000 (some sigOK) rawBody evConfirmed w0).2).1
      = ⟨200, .statusJson "success"⟩ ∧
    (payment_webhook envOK 2000 (some sigOK) rawBody evConfirmed
        (payment_webhook envOK 1000 (some sigOK) rawBody evConfirmed w0).2).2
      ≠ (payment_webhook envOK 1000 (some sigOK) rawBody evConfirmed w0).2 := by
  decide

/-! ## C2 -/

/-- C2 — When the channel grant fails for a validly-signed `confirmed` event,
the handler still responds 200 success, leaves the Payment record at the
terminal `confirmed` status it wrote before attempting the grant, does not
activate the user, and changes no membership; nothing that could retry is
recorded anywhere (the model state is the whole reachable state, and no retry
structure exists in the code).  This evaluates the code at the failing input of
the claim. -/
theorem C2_grant_failure_leaves_confirmed_inactive :
    (payment_webhook envGrantFail 1000 (some sigOK) rawBody evConfirmed w1).1
      = ⟨200, .statusJson "success"⟩ ∧
    ((findFirst? (payMatch evConfirmed)
        (payment_webhook envGrantFail 1000 (some sigOK) rawBody evConfirmed w1).2.payments).map
      PaymentRec.status) = some (some "confirmed") ∧
    (payment_webhook envGrantFail 1000 (some sigOK) rawBody evConfirmed w1).2.users
      = w1.users ∧
    (payment_webhook envGrantFail 1000 (some sigOK) rawBody evConfirmed w1).2.memberships
      = w1.memberships := by
  decide

/-! ## C3 -/

/-- C3 — `verify_ipn_signature` returns true exactly when a secret is
configured and the signature header equals the lowercase-hex HMAC-SHA512 of
the exact raw body under that secret; with the secret missing it returns
false.  The function is total (never throws) and pure (no side effects beyond
logging). -/
theorem C3_verify_ipn_signature_correct :
    (∀ (data : List Nat) (sig : String),
        verify_ipn_signature none data sig = false) ∧
    (∀ (key data : List Nat) (sig : String),
        verify_ipn_signature (some key) data sig = true ↔
          sig = hmacSha512Hex key data) := by
  refine ⟨fun data sig => rfl, fun key data sig => ?_⟩
  simp [verify_ipn_signature]

/-! ## C4 -/

/-- Does the order-id parse of lines 152–162 fail? -/
def orderParseFails (oid : String) : Bool :=
  match parse_order_id oid with
  | .ok _ _ => false
  | _ => true

/-- C4 (counterexample) — A validly-signed request whose order id `"bad"` does
not parse is answered with 400 `Invalid order_id format`, not with a success
acknowledgement (the state is indeed unchanged). -/
theorem C4_counterexample :
    payment_webhook envOK 1000 (some sigOK) rawBody evBadOrder w1
      = (⟨400, .errorJson "Invalid order_id format"⟩, w1) ∧
    (payment_webhook envOK 1000 (some sigOK) rawBody evBadOrder w1).1
      ≠ ⟨200, .statusJson "success"⟩ := by
  decide

/-- C4 (amended) — For every validly-signed request whose order identifier
fails the format or integer parse, the handler makes no state change and
responds 400 with an error body — an error response, not the success
acknowledgement the claim states (and the plan component is not validated at
parse time at all). -/
theorem C4_malformed_order_rejected_400 (env : Env) (now : Int) (s : String)
    (raw : List Nat) (ev : WebhookData) (w : World) (oid : String)
    (hv : verify_ipn_signature env.ipnSecretKey raw s = true)
    (ho : ev.order_id = some oid)
    (hb : orderParseFails oid = true) :
    (payment_webhook env now (some s) raw ev w).2 = w ∧
    (payment_webhook env now (some s) raw ev w).1.code = 400 := by
  by_cases he : oid = ""
  · subst he
    rw [pw_empty_order env now s raw ev hv ho]
    exact ⟨rfl, rfl⟩
  · unfold orderParseFails at hb
    rcases hp : parse_order_id oid with ⟨uid, plan⟩ | _ | _
    · rw [hp] at hb
      simp at hb
    · rw [pw_bad_format env now s raw ev oid hv ho he hp]
      exact ⟨rfl, rfl⟩
    · rw [pw_bad_int env now s raw ev oid hv ho he hp]
      exact ⟨rfl, rfl⟩

/-- C4 (witness) — the amended statement at the concrete bad order id. -/
theorem C4_malformed_order_rejected_400_witness :
    (verify_ipn_signature envOK.ipnSecretKey rawBody sigOK = true ∧
     evBadOrder.order_id = some "bad" ∧
     orderParseFails "bad" = true) ∧
    ((payment_webhook envOK 1000 (some sigOK) rawBody evBadOrder w1).2 = w1 ∧
     (payment_webhook envOK 1000 (some sigOK) rawBody evBadOrder w1).1.code = 400) :=
  ⟨⟨by decide, rfl, by decide⟩,
   C4_malformed_order_rejected_400 envOK 1000 sigOK rawBody evBadOrder w1 "bad"
     (by decide) rfl (by decide)⟩

/-! ## C5 -/

/-- C5 (counterexample) — Payment `p1` is in the terminal status `confirmed`;
a later validly-signed delivery with `payment_status = "failed"` overwrites it
to `failed`: terminal statuses do revert. -/
theorem C5_counterexample :
    pay1confirmed.status = some "confirmed" ∧
    ((findFirst? (payMatch evFailed)
        (payment_webhook envOK 1000 (some sigOK) rawBody evFailed w0).2.payments).map
      PaymentRec.status) = some (some "failed") := by
  decide

/-- C5 (amended) — Payment status is not monotonic: every delivery that passes
signature verification and order-id parsing unconditionally overwrites the
first matching Payment record's status with the delivered `payment_status`
(together with the raw payload and `updated_at`), whatever the stored status
was. -/
theorem C5_status_overwritten (env : Env) (now : Int) (s : String)
    (raw : List Nat) (ev : WebhookData) (w : World) (oid : String)
    (uid : Int) (plan : String)
    (hv : verify_ipn_signature env.ipnSecretKey raw s = true)
    (ho : ev.order_id = some oid) (he : oid ≠ "")
    (hp : parse_order_id oid = .ok uid plan) :
    findFirst? (payMatch ev) (payment_webhook env now (some s) raw ev w).2.payments
      = (findFirst? (payMatch ev) w.payments).map (paymentSet ev now) := by
  by_cases hst : ev.payment_status = some "finished" ∨
      ev.payment_status = some "confirmed"
  · rw [pw_ok_confirmed env now s raw ev oid uid plan hv ho he hp hst]
    exact findFirst?_updateFirst (payMatch ev) (paymentSet ev now)
      (fun x hx => hx) w.payments
  · rw [pw_ok_other_status env now s raw ev oid uid plan hv ho he hp hst]
    exact findFirst?_updateFirst (payMatch ev) (paymentSet ev now)
      (fun x hx => hx) w.payments

/-- C5 (witness) — the amended statement at the concrete `failed`-over-
`confirmed` delivery. -/
theorem C5_status_overwritten_witness :
    (verify_ipn_signature envOK.ipnSecretKey rawBody sigOK = true ∧
     evFailed.order_id = some "hack_academy_42_mid_1" ∧
     "hack_academy_42_mid_1" ≠ "" ∧
     parse_order_id "hack_academy_42_mid_1" = .ok 42 "mid") ∧
    findFirst? (payMatch evFailed)
        (payment_webhook envOK 1000 (some sigOK) rawBody evFailed w0).2.payments
      = (findFirst? (payMatch evFailed) w0.payments).map (paymentSet evFailed 1000) :=
  ⟨⟨by decide, rfl, by decide, by decide⟩,
   C5_status_overwritten envOK 1000 sigOK rawBody evFailed w0
     "hack_academy_42_mid_1" 42 "mid" (by decide) rfl (by decide) (by decide)⟩

/-! ## C6 -/

/-- An active mid-plan subscriber whose expiry is scheduled at 5000. -/
def user42active : UserRec :=
  ⟨42, some "alice", some "mid", some 0, some 5000, some "active", none, none⟩

/-- Admin world: user 42 is active, a member of channel `chM`, with a pending
scheduled expiry at 5000. -/
def aw0 : AdminWorld := ⟨[user42active], [("chM", 42)], [(42, 5000)]⟩

/-- C6 (counterexample) — `revoke_access` on the existing active user 42 sets
`status='revoked'` and `revoked_at`, but the channel membership is still in
place afterwards and the pending scheduled expiry is still pending: no removal
and no cancellation happen. -/
theorem C6_counterexample :
    user42active.status = some "active" ∧
    (revoke_access_world 100 42 aw0).users
      = [{ user42active with status := some "revoked", revoked_at := some 100 }] ∧
    ("chM", 42) ∈ (revoke_access_world 100 42 aw0).memberships ∧
    (revoke_access_world 100 42 aw0).scheduledExpiries = [(42, 5000)] := by
  decide

/-- C6 (amended) — `revoke_access(userId)` immediately sets the first matching
user's status to `revoked` and records the revocation timestamp, and does
nothing else: it removes no channel membership and cancels no pending
scheduled expiry (the `BotManager` holds no bot or scheduler handle). -/
theorem C6_revoke_sets_status_only (now : Int) (uid : Int) (w : AdminWorld) :
    (revoke_access_world now uid w).memberships = w.memberships ∧
    (revoke_access_world now uid w).scheduledExpiries = w.scheduledExpiries ∧
    (revoke_access_world now uid w).users.length = w.users.length ∧
    findFirst? (fun u => u.user_id = uid) (revoke_access_world now uid w).users
      = (findFirst? (fun u => u.user_id = uid) w.users).map
          (fun u => { u with status := some "revoked", revoked_at := some now }) := by
  refine ⟨rfl, rfl, updateFirst_length _ _ _, ?_⟩
  exact findFirst?_updateFirst (fun u => u.user_id = uid)
    (fun u => { u with status := some "revoked", revoked_at := some now })
    (fun x hx => hx) w.users

/-! ## C7 -/

/-- C7 — `extend_subscription(userId, days)` sets the first matching user's
`subscription_end` to the current end plus `days` days when a prior end date
exists, otherwise to now plus `days` days, and sets the status to `active`;
a missing user changes nothing. -/
theorem C7_extend_subscription_adds_days (now : Int) (uid : Int) (days : Int)
    (users : List UserRec) :
    findFirst? (fun u => u.user_id = uid) (extend_subscription now uid days users)
      = (findFirst? (fun u => u.user_id = uid) users).map
          (fun u => { u with
              subscription_end := some (match u.subscription_end with
                | some e => e + days * daySecs
                | none => now + days * daySecs),
              status := some "active" }) := by
  unfold extend_subscription
  rcases h : findFirst? (fun u => u.user_id = uid) users with _ | user
  · simp only [h, Option.map_none']
  · simp only [h, Option.map_some']
    rw [findFirst?_updateFirst (fun u => u.user_id = uid)
      (fun u => { u with
          subscription_end := some (match user.subscription_end with
            | some e => e + days * daySecs
            | none => now + days * daySecs),
          status := some "active" })
      (fun x hx => hx) users, h]
    rfl

/-! ## C8 -/

/-- The claim's characterization of the users `cleanup-expired` must expire:
status `active` and a `subscription_end` strictly before now. -/
def expiredByNow (now : Int) (u : UserRec) : Prop :=
  u.status = some "active" ∧ ∃ e, u.subscription_end = some e ∧ e < now

theorem cleanupMatches_iff (now : Int) (u : UserRec) :
    cleanupMatches now u ↔ expiredByNow now u := by
  unfold cleanupMatches expiredByNow
  rcases h : u.subscription_end with _ | e
  · simp [h]
  · simp [h, And.comm]

instance (now : Int) (u : UserRec) : Decidable (expiredByNow now u) :=
  decidable_of_iff _ (cleanupMatches_iff now u)

/-- C8 — `cleanup_expired` sets `status='expired'` and stamps `expired_at` for
exactly the users that had status `active` and a subscription end earlier than
now, and returns every other user record unchanged (position by position; in
particular a user without a `subscription_end` field is never matched). -/
theorem C8_cleanup_expired_exact (now : Int) (users : List UserRec) (i : Nat) :
    (cleanup_expired now users).get? i
      = (users.get? i).map (fun u =>
          if expiredByNow now u then
            { u with status := some "expired", expired_at := some now }
          else u) := by
  unfold cleanup_expired
  rw [List.get?_map]
  rcases h : users.get? i with _ | u
  · rfl
  · simp only [Option.map_some']
    congr 1
    by_cases hc : cleanupMatches now u
    · rw [if_pos hc, if_pos ((cleanupMatches_iff now u).mp hc)]
    · rw [if_neg hc, if_neg (fun hx => hc ((cleanupMatches_iff now u).mpr hx))]

/-! ## C9 -/

/-- C9 — For a validly-signed, well-formed `confirmed`/`finished` delivery
whose channel grant fails, the handler still answers 200 `status: success`;
the Payment record has already been overwritten with the delivered terminal
status, and the User record is left untouched (not activated).  The failure is
visible only in server-side logs. -/
theorem C9_grant_failure_acked_success (env : Env) (now : Int) (s : String)
    (raw : List Nat) (ev : WebhookData) (w : World) (oid : String)
    (uid : Int) (plan : String)
    (hv : verify_ipn_signature env.ipnSecretKey raw s = true)
    (ho : ev.order_id = some oid) (he : oid ≠ "")
    (hp : parse_order_id oid = .ok uid plan)
    (hst : ev.payment_status = some "finished" ∨
           ev.payment_status = some "confirmed")
    (hgrant : (add_user_to_channel env uid plan w.memberships).1 = false) :
    (payment_webhook env now (some s) raw ev w).1 = ⟨200, .statusJson "success"⟩ ∧
    (payment_webhook env now (some s) raw ev w).2.users = w.users ∧
    findFirst? (payMatch ev) (payment_webhook env now (some s) raw ev w).2.payments
      = (findFirst? (payMatch ev) w.payments).map (paymentSet ev now) := by
  rw [pw_ok_confirmed env now s raw ev oid uid plan hv ho he hp hst]
  refine ⟨rfl, ?_, ?_⟩
  · show (handle_successful_payment env now uid plan w.users w.memberships).2.1 = w.users
    unfold handle_successful_payment
    rcases hadd : add_user_to_channel env uid plan w.memberships with ⟨b, mems'⟩
    rw [hadd] at hgrant
    simp only [] at hgrant
    subst hgrant
    rfl
  · exact findFirst?_updateFirst (payMatch ev) (paymentSet ev now)
      (fun x hx => hx) w.payments

/-- C9 (witness) — the theorem at the concrete grant-failure delivery. -/
theorem C9_grant_failure_acked_success_witness :
    (verify_ipn_signature envGrantFail.ipnSecretKey rawBody sigOK = true ∧
     evConfirmed.order_id = some "hack_academy_42_mid_1" ∧
     "hack_academy_42_mid_1" ≠ "" ∧
     parse_order_id "hack_academy_42_mid_1" = .ok 42 "mid" ∧
     (evConfirmed.payment_status = some "finished" ∨
      evConfirmed.payment_status = some "confirmed") ∧
     (add_user_to_channel envGrantFail 42 "mid" w1.memberships).1 = false) ∧
    ((payment_webhook envGrantFail 1000 (some sigOK) rawBody evConfirmed w1).1
       = ⟨200, .statusJson "success"⟩ ∧
     (payment_webhook envGrantFail 1000 (some sigOK) rawBody evConfirmed w1).2.users
       = w1.users ∧
     findFirst? (payMatch evConfirmed)
         (payment_webhook envGrantFail 1000 (some sigOK) rawBody evConfirmed w1).2.payments
       = (findFirst? (payMatch evConfirmed) w1.payments).map (paymentSet evConfirmed 1000)) :=
  ⟨⟨by decide, rfl, by decide, by decide, by decide, by decide⟩,
   C9_grant_failure_acked_success envGrantFail 1000 sigOK rawBody evConfirmed w1
     "hack_academy_42_mid_1" 42 "mid" (by decide) rfl (by decide) (by decide)
     (by decide) (by decide)⟩

/-! ## C10 -/

/-- A successful grant means a channel id was configured for the plan and the
user ends up admitted to that channel. -/
theorem add_user_to_channel_success_mem (env : Env) (uid : Int) (plan : String)
    (mems : List (String × Int))
    (h : (add_user_to_channel env uid plan mems).1 = true) :
    ∃ cid, channelFor env plan = some cid ∧
      (cid, uid) ∈ (add_user_to_channel env uid plan mems).2 := by
  rcases hpc : plansChannel plan with _ | chKey
  · have heq : add_user_to_channel env uid plan mems = (false, mems) := by
      simp [add_user_to_channel, hpc]
    rw [heq] at h
    exact Bool.noConfusion h
  · have hkey : chKey = plan := by
      unfold plansChannel at hpc
      by_cases hc : plan = "beginner" ∨ plan = "mid" ∨ plan = "complete"
      · rw [if_pos hc] at hpc
        exact (Option.some.inj hpc).symm
      · rw [if_neg hc] at hpc
        cases hpc
    subst hkey
    rcases hcf : channelFor env chKey with _ | cid
    · have heq : add_user_to_channel env uid chKey mems = (false, mems) := by
        simp [add_user_to_channel, hpc, hcf]
      rw [heq] at h
      exact Bool.noConfusion h
    · by_cases hce : cid = ""
      · have heq : add_user_to_channel env uid chKey mems = (false, mems) := by
          simp [add_user_to_channel, hpc, hcf, hce]
        rw [heq] at h
        exact Bool.noConfusion h
      · by_cases hu : env.unbanOk
        · by_cases hs : env.sendOk
          · have heq : add_user_to_channel env uid chKey mems
                = (true, insertMember cid uid mems) := by
              simp [add_user_to_channel, hpc, hcf, hce, hu, hs]
            rw [heq]
            exact ⟨cid, rfl, mem_insertMember cid uid mems⟩
          · have heq : add_user_to_channel env uid chKey mems
                = (false, insertMember cid uid mems) := by
              simp [add_user_to_channel, hpc, hcf, hce, hu, hs]
            rw [heq] at h
            exact Bool.noConfusion h
        · have heq : add_user_to_channel env uid chKey mems = (false, mems) := by
            simp [add_user_to_channel, hpc, hcf, hce, hu]
          rw [heq] at h
          exact Bool.noConfusion h

/-- C10 — For a validly-signed, well-formed `confirmed`/`finished` delivery
with no matching Payment record at all, the payment `update_one` matches
nothing (the collection is returned unchanged, and no record is created), yet
the handler still grants channel membership and activates the existing user
for 30 days, answering 200 success: no check that the payment was ever
initiated or was `waiting` exists. -/
theorem C10_activation_without_payment_record (env : Env) (now : Int)
    (s : String) (raw : List Nat) (ev : WebhookData) (w : World) (oid : String)
    (uid : Int) (plan : String) (u : UserRec)
    (hv : verify_ipn_signature env.ipnSecretKey raw s = true)
    (ho : ev.order_id = some oid) (he : oid ≠ "")
    (hp : parse_order_id oid = .ok uid plan)
    (hst : ev.payment_status = some "finished" ∨
           ev.payment_status = some "confirmed")
    (hnopay : ∀ p ∈ w.payments, ¬ payMatch ev p)
    (hgrant : (add_user_to_channel env uid plan w.memberships).1 = true)
    (huser : findFirst? (fun x => x.user_id = uid) w.users = some u) :
    (payment_webhook env now (some s) raw ev w).1 = ⟨200, .statusJson "success"⟩ ∧
    (payment_webhook env now (some s) raw ev w).2.payments = w.payments ∧
    findFirst? (fun x => x.user_id = uid) (payment_webhook env now (some s) raw ev w).2.users
      = some { u with subscription_plan := some plan,
                      subscription_start := some now,
                      subscription_end := some (now + 30 * daySecs),
                      status := some "active" } ∧
    ∃ cid, channelFor env plan = some cid ∧
      (cid, uid) ∈ (payment_webhook env now (some s) raw ev w).2.memberships := by
  rw [pw_ok_confirmed env now s raw ev oid uid plan hv ho he hp hst]
  refine ⟨rfl, ?_, ?_, ?_⟩
  · exact updateFirst_of_forall_not (payMatch ev) (paymentSet ev now) w.payments hnopay
  · show findFirst? (fun x => x.user_id = uid)
        (handle_successful_payment env now uid plan w.users w.memberships).2.1 = _
    unfold handle_successful_payment
    rcases hadd : add_user_to_channel env uid plan w.memberships with ⟨b, mems'⟩
    rw [hadd] at hgrant
    simp only [] at hgrant
    subst hgrant
    simp only []
    rw [findFirst?_updateFirst (fun x => x.user_id = uid)
      (fun x => { x with subscription_plan := some plan,
                         subscription_start := some now,
                         subscription_end := some (now + 30 * daySecs),
                         status := some "active" })
      (fun x hx => hx) w.users, huser]
    rfl
  · obtain ⟨cid, hcf, hmem⟩ :=
      add_user_to_channel_success_mem env uid plan w.memberships hgrant
    refine ⟨cid, hcf, ?_⟩
    show (cid, uid) ∈ (handle_successful_payment env now uid plan w.users w.memberships).2.2
    unfold handle_successful_payment
    rcases hadd : add_user_to_channel env uid plan w.memberships with ⟨b, mems'⟩
    rw [hadd] at hmem
    cases b
    · exact hmem
    · exact hmem

/-- C10 (witness) — the theorem at a concrete world holding no payment record
for the delivered payment id. -/
theorem C10_activation_without_payment_record_witness :
    (verify_ipn_signature envOK.ipnSecretKey rawBody sigOK = true ∧
     evConfirmed.order_id = some "hack_academy_42_mid_1" ∧
     "hack_academy_42_mid_1" ≠ "" ∧
     parse_order_id "hack_academy_42_mid_1" = .ok 42 "mid" ∧
     (evConfirmed.payment_status = some "finished" ∨
      evConfirmed.payment_status = some "confirmed") ∧
     (∀ p ∈ wNoPay.payments, ¬ payMatch evConfirmed p) ∧
     (add_user_to_channel envOK 42 "mid" wNoPay.memberships).1 = true ∧
     findFirst? (fun x => x.user_id = 42) wNoPay.users = some user42) ∧
    ((payment_webhook envOK 1000 (some sigOK) rawBody evConfirmed wNoPay).1
       = ⟨200, .statusJson "success"⟩ ∧
     (payment_webhook envOK 1000 (some sigOK) rawBody evConfirmed wNoPay).2.payments
       = wNoPay.payments ∧
     findFirst? (fun x => x.user_id = 42)
         (payment_webhook envOK 1000 (some sigOK) rawBody evConfirmed wNoPay).2.users
       = some { user42 with subscription_plan := some "mid",
                            subscription_start := some 1000,
                            subscription_end := some (1000 + 30 * daySecs),
                            status := some "active" } ∧
     ∃ cid, channelFor envOK "mid" = some cid ∧
       (cid, 42) ∈ (payment_webhook envOK 1000 (some sigOK) rawBody evConfirmed wNoPay).2.memberships) :=
  ⟨⟨by decide, rfl, by decide, by decide, by decide,
    fun p hp => absurd hp (List.not_mem_nil p), by decide, by decide⟩,
   C10_activation_without_payment_record envOK 1000 sigOK rawBody evConfirmed
     wNoPay "hack_academy_42_mid_1" 42 "mid" user42 (by decide) rfl (by decide)
     (by decide) (by decide) (fun p hp => absurd hp (List.not_mem_nil p))
     (by decide) (by decide)⟩

end HackHome
